import Mathlib

/-!
Shallow embedding of `src/server.js` (Recommendations-Restaurant backend):
a flat-file user record store with signup, login, preference-update and
user-lookup operations. Request bodies arrive as JSON, so string-valued
fields are modelled as `Option String` (with `none` for an absent field)
and JavaScript truthiness (`!x`) on such a field is "absent or empty".
Numbers are modelled as `Rat` (for `minRating`) and `Nat` (for ids and
HTTP status codes). Each route handler becomes a pure function from the
store (the parsed contents of `users.json`) and the request fields to a
response value, paired with the store that is written back.
-/

namespace RestaurantRec

/-- JavaScript truthiness test `!x` for an optional string field of a JSON
body: `undefined` and the empty string are falsy. -/
def strFalsy : Option String → Bool
  | none => true
  | some s => s = ""

/-- JavaScript `x || d` for an optional string field: the default replaces
an absent or empty (falsy) value. Embeds `phone || ''` and
`priceRange || ''` from `server.js`. -/
def jsOrString (v : Option String) (d : String) : String :=
  match v with
  | none => d
  | some s => if s = "" then d else s

/-- JavaScript truthiness test `!x` for an optional numeric field:
`undefined` and `0` are falsy. -/
def natFalsy : Option Nat → Bool
  | none => true
  | some n => n = 0

/-- JavaScript `x || d` for an optional numeric field: the default replaces
an absent or zero (falsy) value. Embeds `minRating || 3.0`. -/
def jsOrRat (v : Option Rat) (d : Rat) : Rat :=
  match v with
  | none => d
  | some r => if r = 0 then d else r

/-- A character allowed by the character class `[^\s@]` of the email
regular expression in `validateEmail`: neither whitespace nor `@`. -/
def isEmailChar (c : Char) : Bool := !c.isWhitespace && c ≠ '@'

/-- Splits a character list at every occurrence of `c`; `n` occurrences
yield `n + 1` segments. -/
def splitOnChar (c : Char) : List Char → List (List Char)
  | [] => [[]]
  | x :: xs =>
    match splitOnChar c xs with
    | [] => [[]]
    | s :: rest => if x = c then [] :: s :: rest else (x :: s) :: rest

/-- The part after `@` must match `[^\s@]+\.[^\s@]+`: nonempty, every
character in the class, and containing a literal `.` that has at least one
character before it and one after it (positions `1 .. length - 2`). -/
def validDomain (d : List Char) : Bool :=
  !d.isEmpty && d.all isEmailChar && ((d.drop 1).dropLast.contains '.')

/-- Embeds `validateEmail` from `server.js`: the test of the regular
expression `^[^\s@]+@[^\s@]+\.[^\s@]+$`. Since the class `[^\s@]`
excludes `@`, a match contains exactly one `@`, i.e. splitting on `@`
yields exactly the local part and the domain part. -/
def validateEmail (email : String) : Bool :=
  match splitOnChar '@' email.data with
  | [loc, dom] => !loc.isEmpty && loc.all isEmailChar && validDomain dom
  | _ => false

/-- Modelled from the spec: `hashPassword` in `server.js` delegates to the
external `bcryptjs` library (`genSaltSync` / `hashSync`), which is not part
of this repository. The spec requires a hash that verifies only against its
own plaintext and never equals the plaintext; the model realises this with
a deterministic injective encoding carrying a bcrypt-style prefix. -/
def hashPassword (password : String) : String :=
  "$2a$10$" ++ password

/-- Modelled from the spec: `verifyPassword` delegates to
`bcryptjs.compareSync`; in the model a hash verifies exactly against the
plaintext that produced it. -/
def verifyPassword (password hash : String) : Bool :=
  hash = hashPassword password

/-- One persisted user record, with the fields built by the signup route.
The stored hash lives in the field named `password`, as in `users.json`. -/
structure UserRecord where
  id : Nat
  firstName : String
  lastName : String
  email : String
  phone : String
  password : String
  preferences : List String
  dietaryRestrictions : List String
  cuisineTypes : List String
  priceRange : String
  minRating : Rat
  hasPreferences : Bool
  createdAt : String
  deriving Repr, DecidableEq

/-- The durable document `users.json`: the user collection plus the
`nextId` counter. -/
structure Store where
  users : List UserRecord
  nextId : Nat
  deriving Repr, DecidableEq

/-- The initial data written by `initializeUsersFile` and the fallback of
`readUsers`: `{ users: [], nextId: 1 }`. -/
def initialStore : Store := { users := [], nextId := 1 }

/-- The state of the durable file `users.json` as far as the code can
distinguish it: missing, present but failing `JSON.parse`, or present and
parsing to a store. -/
inductive Durable
  | absent
  | unparseable
  | parsed (st : Store)
  deriving Repr, DecidableEq

/-- Embeds `initializeUsersFile`: if the file does not exist, write the
initial data; otherwise leave it alone. -/
def initializeUsersFile : Durable → Durable
  | .absent => .parsed initialStore
  | d => d

/-- Embeds `readUsers`: read and parse the file, and on any error (missing
file or parse failure) return the default `{ users: [], nextId: 1 }`
without touching the file. -/
def readUsers : Durable → Store
  | .parsed st => st
  | _ => initialStore

/-- The Record Store `load()` of the spec as the code realises it: the
startup `initializeUsersFile` followed by `readUsers`. Returns the
in-memory store together with the durable file state afterwards. -/
def load (d : Durable) : Store × Durable :=
  let d' := initializeUsersFile d
  (readUsers d', d')

/-- The JSON body of `POST /api/auth/signup`. -/
structure SignupInput where
  firstName : Option String
  lastName : Option String
  email : Option String
  phone : Option String
  password : Option String
  confirmPassword : Option String
  deriving Repr, DecidableEq

/-- Response of the signup route: `{success:false, message}` with a status,
or `{success:true, message, userId}` with status 201. -/
inductive SignupResult
  | failure (status : Nat) (message : String)
  | success (status : Nat) (message : String) (userId : Nat)
  deriving Repr, DecidableEq

/-- Rule 1 of signup passes: `!(!firstName || !lastName)`. -/
def nameOk (inp : SignupInput) : Bool :=
  !(strFalsy inp.firstName || strFalsy inp.lastName)

/-- Rule 2 of signup passes: `!(!email || !validateEmail(email))`. -/
def emailOk (inp : SignupInput) : Bool :=
  !(strFalsy inp.email || !validateEmail (inp.email.getD ""))

/-- Rule 3 of signup passes: `!(!password || password.length < 8)`. -/
def passwordOk (inp : SignupInput) : Bool :=
  !(strFalsy inp.password || decide ((inp.password.getD "").length < 8))

/-- Rule 4 of signup passes: `!(password !== confirmPassword)`. The
comparison is strict, so an absent `confirmPassword` never equals the
(present, by rule 3) `password`. -/
def confirmOk (inp : SignupInput) : Bool :=
  inp.password == inp.confirmPassword

/-- Rule 5 of signup passes: `!data.users.some(u => u.email === email)`. -/
def emailFree (st : Store) (inp : SignupInput) : Bool :=
  !(st.users.any fun u => u.email == inp.email.getD "")

/-- The record built by the signup route on success: id from `nextId`,
inputs copied (phone defaulted via `||`), hashed password, empty
preference fields, `minRating` 3.0, `hasPreferences` false, `createdAt`
the current time. -/
def newUserRecord (st : Store) (inp : SignupInput) (now : String) : UserRecord :=
  { id := st.nextId
    firstName := inp.firstName.getD ""
    lastName := inp.lastName.getD ""
    email := inp.email.getD ""
    phone := jsOrString inp.phone ""
    password := hashPassword (inp.password.getD "")
    preferences := []
    dietaryRestrictions := []
    cuisineTypes := []
    priceRange := ""
    minRating := 3
    hasPreferences := false
    createdAt := now }

/-- Embeds `POST /api/auth/signup`: the five validation checks in source
order, each returning its own 400 message, then append the new record,
bump `nextId`, persist, and answer 201 with the new id. `now` stands for
`new Date().toISOString()`. The returned store is what `writeUsers`
persists; on every failure path the file is not written, so the input
store is returned unchanged. -/
def signup (st : Store) (inp : SignupInput) (now : String) : SignupResult × Store :=
  if !nameOk inp then
    (.failure 400 "Vui lòng nhập họ và tên", st)
  else if !emailOk inp then
    (.failure 400 "Email không hợp lệ", st)
  else if !passwordOk inp then
    (.failure 400 "Mật khẩu phải có ít nhất 8 ký tự", st)
  else if !confirmOk inp then
    (.failure 400 "Mật khẩu không khớp", st)
  else if !emailFree st inp then
    (.failure 400 "Email này đã được đăng ký", st)
  else
    (.success 201 "Tài khoản được tạo thành công!" (newUserRecord st inp now).id,
     { users := st.users ++ [newUserRecord st inp now], nextId := st.nextId + 1 })

/-- The sanitized user view returned by a successful login:
`{id, firstName, lastName, email, hasPreferences}`. -/
structure LoginView where
  id : Nat
  firstName : String
  lastName : String
  email : String
  hasPreferences : Bool
  deriving Repr, DecidableEq

/-- Builds the login success payload from a record. `hasPreferences ||
false` in the source is the identity on the boolean field of the model. -/
def loginViewOf (u : UserRecord) : LoginView :=
  { id := u.id
    firstName := u.firstName
    lastName := u.lastName
    email := u.email
    hasPreferences := u.hasPreferences }

/-- Response of the login route. -/
inductive LoginResult
  | failure (status : Nat) (message : String)
  | success (status : Nat) (message : String) (user : LoginView)
  deriving Repr, DecidableEq

/-- Embeds `POST /api/auth/login`: require both fields, find the record by
exact email match, verify the password against the stored hash; a missing
record and a failed verification share one 401 response. -/
def login (st : Store) (email password : Option String) : LoginResult :=
  if strFalsy email || strFalsy password then
    .failure 400 "Vui lòng nhập email và mật khẩu"
  else
    match st.users.find? (fun u => u.email == email.getD "") with
    | none => .failure 401 "Email hoặc mật khẩu không đúng"
    | some u =>
      if !verifyPassword (password.getD "") u.password then
        .failure 401 "Email hoặc mật khẩu không đúng"
      else
        .success 200 "Đăng nhập thành công!" (loginViewOf u)

/-- A JSON value supplied for one of the preference tag fields, as far as
`Array.isArray` distinguishes it: a list of tags, or anything else
(including an absent field). -/
inductive JsInput
  | arr (xs : List String)
  | nonArray
  deriving Repr, DecidableEq

/-- Embeds `Array.isArray(x) ? x : []`. -/
def coerceTags : JsInput → List String
  | .arr xs => xs
  | .nonArray => []

/-- The JSON body of `POST /api/auth/preferences`. -/
structure PreferencesInput where
  userId : Option Nat
  preferences : JsInput
  dietaryRestrictions : JsInput
  cuisineTypes : JsInput
  priceRange : Option String
  minRating : Option Rat
  deriving DecidableEq

/-- The field assignments the preferences route performs on the found
record: coerce each tag field, default `priceRange` and `minRating` via
`||`, and set `hasPreferences` to true. All other fields are untouched. -/
def applyPreferences (u : UserRecord) (inp : PreferencesInput) : UserRecord :=
  { u with
    preferences := coerceTags inp.preferences
    dietaryRestrictions := coerceTags inp.dietaryRestrictions
    cuisineTypes := coerceTags inp.cuisineTypes
    priceRange := jsOrString inp.priceRange ""
    minRating := jsOrRat inp.minRating 3
    hasPreferences := true }

/-- In-place update of the first record satisfying `p` (the
`findIndex` + indexed-assignment idiom of the preferences route): returns
the updated record, if any, together with the updated list. -/
def updateFirst (p : UserRecord → Bool) (f : UserRecord → UserRecord) :
    List UserRecord → Option UserRecord × List UserRecord
  | [] => (none, [])
  | u :: rest =>
    if p u then (some (f u), f u :: rest)
    else
      let r := updateFirst p f rest
      (r.1, u :: r.2)

/-- Response of the preferences route; success carries the full updated
record, hash field included. -/
inductive UpdateResult
  | failure (status : Nat) (message : String)
  | success (status : Nat) (message : String) (user : UserRecord)
  deriving Repr, DecidableEq

/-- Embeds `POST /api/auth/preferences`: reject a falsy `userId`, look up
the record by `parseInt(userId)`, overwrite its preference fields, persist
and return the full record; 404 (and no write) when no record matches. -/
def updatePreferences (st : Store) (inp : PreferencesInput) :
    UpdateResult × Store :=
  if natFalsy inp.userId then
    (.failure 400 "Thiếu userId", st)
  else
    match updateFirst (fun u => u.id == inp.userId.getD 0)
        (fun u => applyPreferences u inp) st.users with
    | (none, _) => (.failure 404 "User không tìm thấy", st)
    | (some u, users') =>
        (.success 200 "Preferences đã được cập nhật!" u,
         { st with users := users' })

/-- A user record with the `password` field stripped, as produced by the
destructuring `const { password, ...userWithoutPassword } = user` in the
`GET /api/users/:id` route. -/
structure SanitizedUser where
  id : Nat
  firstName : String
  lastName : String
  email : String
  phone : String
  preferences : List String
  dietaryRestrictions : List String
  cuisineTypes : List String
  priceRange : String
  minRating : Rat
  hasPreferences : Bool
  createdAt : String
  deriving Repr, DecidableEq

/-- Copies every field except `password`. -/
def sanitizeUser (u : UserRecord) : SanitizedUser :=
  { id := u.id
    firstName := u.firstName
    lastName := u.lastName
    email := u.email
    phone := u.phone
    preferences := u.preferences
    dietaryRestrictions := u.dietaryRestrictions
    cuisineTypes := u.cuisineTypes
    priceRange := u.priceRange
    minRating := u.minRating
    hasPreferences := u.hasPreferences
    createdAt := u.createdAt }

/-- Response of `GET /api/users/:id`. -/
inductive GetUserResult
  | failure (status : Nat) (message : String)
  | success (user : SanitizedUser)
  deriving Repr, DecidableEq

/-- Embeds `GET /api/users/:id`: find the record by id and return it
without the password field, else 404. -/
def getUser (st : Store) (id : Nat) : GetUserResult :=
  match st.users.find? (fun u => u.id == id) with
  | none => .failure 404 "User không tìm thấy"
  | some u => .success (sanitizeUser u)

/-- Stores reachable from the initial empty store by the repository's
operations. `login` and `getUser` never write the store, so only the two
mutating routes appear as steps. -/
inductive Reachable : Store → Prop
  | init : Reachable initialStore
  | signupStep (st : Store) (inp : SignupInput) (now : String) :
      Reachable st → Reachable (signup st inp now).2
  | prefsStep (st : Store) (inp : PreferencesInput) :
      Reachable st → Reachable (updatePreferences st inp).2

/-! ### Helper lemmas about `signup` -/

theorem signup_eq_of_name_fail (st : Store) (inp : SignupInput) (now : String)
    (h : nameOk inp = false) :
    signup st inp now = (.failure 400 "Vui lòng nhập họ và tên", st) := by
  simp [signup, h]

theorem signup_eq_of_email_fail (st : Store) (inp : SignupInput) (now : String)
    (h1 : nameOk inp = true) (h : emailOk inp = false) :
    signup st inp now = (.failure 400 "Email không hợp lệ", st) := by
  simp [signup, h1, h]

theorem signup_eq_of_password_fail (st : Store) (inp : SignupInput) (now : String)
    (h1 : nameOk inp = true) (h2 : emailOk inp = true)
    (h : passwordOk inp = false) :
    signup st inp now = (.failure 400 "Mật khẩu phải có ít nhất 8 ký tự", st) := by
  simp [signup, h1, h2, h]

theorem signup_eq_of_confirm_fail (st : Store) (inp : SignupInput) (now : String)
    (h1 : nameOk inp = true) (h2 : emailOk inp = true)
    (h3 : passwordOk inp = true) (h : confirmOk inp = false) :
    signup st inp now = (.failure 400 "Mật khẩu không khớp", st) := by
  simp [signup, h1, h2, h3, h]

theorem signup_eq_of_taken (st : Store) (inp : SignupInput) (now : String)
    (h1 : nameOk inp = true) (h2 : emailOk inp = true)
    (h3 : passwordOk inp = true) (h4 : confirmOk inp = true)
    (h : emailFree st inp = false) :
    signup st inp now = (.failure 400 "Email này đã được đăng ký", st) := by
  simp [signup, h1, h2, h3, h4, h]

theorem signup_eq_of_ok (st : Store) (inp : SignupInput) (now : String)
    (h1 : nameOk inp = true) (h2 : emailOk inp = true)
    (h3 : passwordOk inp = true) (h4 : confirmOk inp = true)
    (h5 : emailFree st inp = true) :
    signup st inp now
      = (.success 201 "Tài khoản được tạo thành công!" st.nextId,
         { users := st.users ++ [newUserRecord st inp now],
           nextId := st.nextId + 1 }) := by
  simp [signup, h1, h2, h3, h4, h5, newUserRecord]

theorem passwordOk_iff_length (inp : SignupInput) (p : String) :
    passwordOk { inp with password := some p } = decide (8 ≤ p.length) := by
  simp only [passwordOk, strFalsy, Option.getD_some]
  rcases Nat.lt_or_ge p.length 8 with h | h
  · rw [decide_eq_true h, decide_eq_false (Nat.not_le.mpr h)]
    simp
  · have hp : p ≠ "" := by
      intro e
      subst e
      exact absurd h (by decide)
    rw [decide_eq_false hp, decide_eq_false (Nat.not_lt.mpr h),
      decide_eq_true h]
    rfl

/-! ### C1 -/

/-- C1: `createAccount` applies the five validation rules in source order,
the first failing rule determines the (distinct) error message, success
occurs exactly when all five pass, and the password rule is exactly
`length ≥ 8`. -/
theorem signup_validation_order (st : Store) (inp : SignupInput) (now : String) :
    (nameOk inp = false →
      (signup st inp now).1 = .failure 400 "Vui lòng nhập họ và tên")
  ∧ (nameOk inp = true → emailOk inp = false →
      (signup st inp now).1 = .failure 400 "Email không hợp lệ")
  ∧ (nameOk inp = true → emailOk inp = true → passwordOk inp = false →
      (signup st inp now).1 = .failure 400 "Mật khẩu phải có ít nhất 8 ký tự")
  ∧ (nameOk inp = true → emailOk inp = true → passwordOk inp = true →
      confirmOk inp = false →
      (signup st inp now).1 = .failure 400 "Mật khẩu không khớp")
  ∧ (nameOk inp = true → emailOk inp = true → passwordOk inp = true →
      confirmOk inp = true → emailFree st inp = false →
      (signup st inp now).1 = .failure 400 "Email này đã được đăng ký")
  ∧ ((signup st inp now).1
        = .success 201 "Tài khoản được tạo thành công!" st.nextId
      ↔ nameOk inp = true ∧ emailOk inp = true ∧ passwordOk inp = true
          ∧ confirmOk inp = true ∧ emailFree st inp = true)
  ∧ (∀ p : String, passwordOk { inp with password := some p }
        = decide (8 ≤ p.length))
  ∧ ([ "Vui lòng nhập họ và tên", "Email không hợp lệ",
       "Mật khẩu phải có ít nhất 8 ký tự", "Mật khẩu không khớp",
       "Email này đã được đăng ký" ] : List String).Nodup := by
  refine ⟨?_, ?_, ?_, ?_, ?_, ?_, ?_, by decide⟩
  · intro h; rw [signup_eq_of_name_fail st inp now h]
  · intro h1 h; rw [signup_eq_of_email_fail st inp now h1 h]
  · intro h1 h2 h; rw [signup_eq_of_password_fail st inp now h1 h2 h]
  · intro h1 h2 h3 h; rw [signup_eq_of_confirm_fail st inp now h1 h2 h3 h]
  · intro h1 h2 h3 h4 h; rw [signup_eq_of_taken st inp now h1 h2 h3 h4 h]
  · constructor
    · intro h
      cases h1 : nameOk inp with
      | false => rw [signup_eq_of_name_fail st inp now h1] at h; simp at h
      | true =>
        cases h2 : emailOk inp with
        | false => rw [signup_eq_of_email_fail st inp now h1 h2] at h; simp at h
        | true =>
          cases h3 : passwordOk inp with
          | false =>
            rw [signup_eq_of_password_fail st inp now h1 h2 h3] at h
            simp at h
          | true =>
            cases h4 : confirmOk inp with
            | false =>
              rw [signup_eq_of_confirm_fail st inp now h1 h2 h3 h4] at h
              simp at h
            | true =>
              cases h5 : emailFree st inp with
              | false =>
                rw [signup_eq_of_taken st inp now h1 h2 h3 h4 h5] at h
                simp at h
              | true => exact ⟨rfl, rfl, rfl, rfl, rfl⟩
    · rintro ⟨h1, h2, h3, h4, h5⟩
      rw [signup_eq_of_ok st inp now h1 h2 h3 h4 h5]
  · intro p; exact passwordOk_iff_length inp p

/-- The concrete signup body of the spec's scenario:
`("Ana","Lee","ana@x.com","","pass1234","pass1234")`. -/
def inpAna : SignupInput :=
  { firstName := some "Ana", lastName := some "Lee",
    email := some "ana@x.com", phone := some "",
    password := some "pass1234", confirmPassword := some "pass1234" }

/-- Witness for C1: on the empty store the scenario signup passes all five
rules and returns id 1. -/
theorem signup_validation_order_witness :
    (signup initialStore inpAna "2024-01-01T00:00:00.000Z").1
      = .success 201 "Tài khoản được tạo thành công!" 1 :=
  ((signup_validation_order initialStore inpAna
      "2024-01-01T00:00:00.000Z").2.2.2.2.2.1).mpr
    ⟨by decide, by decide, by decide, by decide, by decide⟩

/-! ### C2 -/

/-- C2: a successful `createAccount` returns the pre-call `nextId`, appends
exactly one record whose fields come from the inputs (phone defaulted to
empty), with hashed password, preference fields at their defaults,
`minRating` 3.0, `hasPreferences` false and `createdAt` the current time,
and bumps `nextId` by exactly one; the success payload consists only of
the 201 status, the fixed message and the new id, so the password hash is
not part of it. -/
theorem signup_success_shape (st : Store) (inp : SignupInput) (now : String)
    (h1 : nameOk inp = true) (h2 : emailOk inp = true)
    (h3 : passwordOk inp = true) (h4 : confirmOk inp = true)
    (h5 : emailFree st inp = true) :
    signup st inp now
      = (.success 201 "Tài khoản được tạo thành công!" st.nextId,
         { users := st.users ++
             [{ id := st.nextId
                firstName := inp.firstName.getD ""
                lastName := inp.lastName.getD ""
                email := inp.email.getD ""
                phone := jsOrString inp.phone ""
                password := hashPassword (inp.password.getD "")
                preferences := []
                dietaryRestrictions := []
                cuisineTypes := []
                priceRange := ""
                minRating := 3
                hasPreferences := false
                createdAt := now }],
           nextId := st.nextId + 1 }) :=
  signup_eq_of_ok st inp now h1 h2 h3 h4 h5

/-- Witness for C2: the scenario signup on the empty store produces the
fully evaluated record and post-state. -/
theorem signup_success_shape_witness :
    signup initialStore inpAna "2024-01-01T00:00:00.000Z"
      = (.success 201 "Tài khoản được tạo thành công!" 1,
         { users := [{ id := 1
                       firstName := "Ana"
                       lastName := "Lee"
                       email := "ana@x.com"
                       phone := ""
                       password := hashPassword "pass1234"
                       preferences := []
                       dietaryRestrictions := []
                       cuisineTypes := []
                       priceRange := ""
                       minRating := 3
                       hasPreferences := false
                       createdAt := "2024-01-01T00:00:00.000Z" }]
           nextId := 2 }) :=
  signup_success_shape initialStore inpAna "2024-01-01T00:00:00.000Z"
    (by decide) (by decide) (by decide) (by decide) (by decide)

/-! ### C6 -/

/-- C6: every failed signup leaves the store unchanged; in particular an
invalid email creates no record, and a duplicate email is rejected with
the EmailTaken message while the store keeps exactly one record with that
email and the same `nextId`. -/
theorem signup_failure_frame (st : Store) (inp : SignupInput) (now : String) :
    (∀ s m, (signup st inp now).1 = .failure s m → (signup st inp now).2 = st)
  ∧ (nameOk inp = true → emailOk inp = false →
      signup st inp now = (.failure 400 "Email không hợp lệ", st))
  ∧ (∀ e, inp.email = some e →
      st.users.countP (fun u => u.email == e) = 1 →
      nameOk inp = true → emailOk inp = true → passwordOk inp = true →
      confirmOk inp = true →
      signup st inp now = (.failure 400 "Email này đã được đăng ký", st)
      ∧ (signup st inp now).2.users.countP (fun u => u.email == e) = 1
      ∧ (signup st inp now).2.nextId = st.nextId) := by
  refine ⟨?_, ?_, ?_⟩
  · intro s m h
    cases h1 : nameOk inp with
    | false => rw [signup_eq_of_name_fail st inp now h1]
    | true => cases h2 : emailOk inp with
      | false => rw [signup_eq_of_email_fail st inp now h1 h2]
      | true => cases h3 : passwordOk inp with
        | false => rw [signup_eq_of_password_fail st inp now h1 h2 h3]
        | true => cases h4 : confirmOk inp with
          | false => rw [signup_eq_of_confirm_fail st inp now h1 h2 h3 h4]
          | true => cases h5 : emailFree st inp with
            | false => rw [signup_eq_of_taken st inp now h1 h2 h3 h4 h5]
            | true =>
              rw [signup_eq_of_ok st inp now h1 h2 h3 h4 h5] at h
              simp at h
  · intro h1 h2
    exact signup_eq_of_email_fail st inp now h1 h2
  · intro e he hcount h1 h2 h3 h4
    have hpos : 0 < st.users.countP (fun u => u.email == e) := by
      rw [hcount]; exact Nat.one_pos
    obtain ⟨u, hu, hue⟩ := List.countP_pos_iff.mp hpos
    have hany : (st.users.any fun u => u.email == inp.email.getD "") = true := by
      rw [he, Option.getD_some, List.any_eq_true]
      exact ⟨u, hu, hue⟩
    have hfree : emailFree st inp = false := by
      simp [emailFree, hany]
    rw [signup_eq_of_taken st inp now h1 h2 h3 h4 hfree]
    exact ⟨rfl, hcount, rfl⟩

/-- The record the scenario signup creates, as stored in `users.json`. -/
def anaRecord : UserRecord :=
  { id := 1, firstName := "Ana", lastName := "Lee", email := "ana@x.com",
    phone := "", password := hashPassword "pass1234", preferences := [],
    dietaryRestrictions := [], cuisineTypes := [], priceRange := "",
    minRating := 3, hasPreferences := false,
    createdAt := "2024-01-01T00:00:00.000Z" }

/-- The store after the scenario signup. -/
def storeAna : Store := { users := [anaRecord], nextId := 2 }

/-- Witness for C6: a second signup with the already-registered email fails
with the EmailTaken message, the store keeps exactly one record with that
email, and `nextId` stays 2. -/
theorem signup_failure_frame_witness :
    signup storeAna inpAna "2024-01-02T00:00:00.000Z"
        = (.failure 400 "Email này đã được đăng ký", storeAna)
    ∧ (signup storeAna inpAna "2024-01-02T00:00:00.000Z").2.users.countP
        (fun u => u.email == "ana@x.com") = 1
    ∧ (signup storeAna inpAna "2024-01-02T00:00:00.000Z").2.nextId
        = storeAna.nextId :=
  (signup_failure_frame storeAna inpAna "2024-01-02T00:00:00.000Z").2.2
    "ana@x.com" rfl (by decide) (by decide) (by decide) (by decide) (by decide)

/-! ### C4 -/

/-- C4: a login whose email matches no record and a login whose found
record fails hash verification produce the very same failure — identical
401 status and identical message — so the response does not reveal whether
the email exists. -/
theorem login_failure_indistinguishable (st : Store) (e p : String)
    (he : e ≠ "") (hp : p ≠ "") :
    (st.users.find? (fun u => u.email == e) = none →
      login st (some e) (some p)
        = .failure 401 "Email hoặc mật khẩu không đúng")
  ∧ (∀ u, st.users.find? (fun u => u.email == e) = some u →
      verifyPassword p u.password = false →
      login st (some e) (some p)
        = .failure 401 "Email hoặc mật khẩu không đúng") := by
  have hcond : (strFalsy (some e) || strFalsy (some p)) = false := by
    simp [strFalsy, he, hp]
  constructor
  · intro hf
    simp [login, hcond, hf]
  · intro u hf hv
    simp [login, hcond, hf, hv]

/-- Witness for C4: on the scenario store, a wrong password for the
registered email and any password for an unknown email yield the same
response. -/
theorem login_failure_indistinguishable_witness :
    login storeAna (some "ana@x.com") (some "wrongpass1")
        = .failure 401 "Email hoặc mật khẩu không đúng"
    ∧ login storeAna (some "bob@x.com") (some "wrongpass1")
        = .failure 401 "Email hoặc mật khẩu không đúng" :=
  ⟨(login_failure_indistinguishable storeAna "ana@x.com" "wrongpass1"
      (by decide) (by decide)).2 anaRecord (by decide) (by decide),
   (login_failure_indistinguishable storeAna "bob@x.com" "wrongpass1"
      (by decide) (by decide)).1 (by decide)⟩

/-! ### C5 -/

/-- C5: login and getUser responses never carry the stored hash: a
successful login returns exactly the five-field sanitized view of the
found record with status 200, a successful getUser returns the record with
the password field stripped, and both views are unchanged when the stored
hash is replaced by anything else, so no response depends on or contains
the hash. -/
theorem responses_never_contain_hash :
    (∀ (st : Store) (e p : Option String) (s : Nat) (m : String)
        (v : LoginView),
        login st e p = .success s m v →
        ∃ u, st.users.find? (fun x => x.email == e.getD "") = some u
          ∧ v = loginViewOf u ∧ s = 200)
  ∧ (∀ (u : UserRecord) (h : String),
        loginViewOf { u with password := h } = loginViewOf u)
  ∧ (∀ (st : Store) (i : Nat) (r : SanitizedUser),
        getUser st i = .success r →
        ∃ u, st.users.find? (fun x => x.id == i) = some u
          ∧ r = sanitizeUser u)
  ∧ (∀ (u : UserRecord) (h : String),
        sanitizeUser { u with password := h } = sanitizeUser u) := by
  refine ⟨?_, fun u h => rfl, ?_, fun u h => rfl⟩
  · intro st e p s m v h
    by_cases hc : (strFalsy e || strFalsy p) = true
    · simp [login, hc] at h
    · rw [Bool.not_eq_true] at hc
      cases hf : st.users.find? (fun x => x.email == e.getD "") with
      | none => simp [login, hc, hf] at h
      | some u =>
        by_cases hv : verifyPassword (p.getD "") u.password = true
        · have hl : login st e p
              = .success 200 "Đăng nhập thành công!" (loginViewOf u) := by
            simp [login, hc, hf, hv]
          rw [hl] at h
          injection h with h1 h2 h3
          exact ⟨u, rfl, h3.symm, h1.symm⟩
        · rw [Bool.not_eq_true] at hv
          have hl : login st e p
              = .failure 401 "Email hoặc mật khẩu không đúng" := by
            simp [login, hc, hf, hv]
          rw [hl] at h
          simp at h
  · intro st i r h
    cases hf : st.users.find? (fun x => x.id == i) with
    | none => simp [getUser, hf] at h
    | some u =>
      have hg : getUser st i = .success (sanitizeUser u) := by
        simp [getUser, hf]
      rw [hg] at h
      injection h with h1
      exact ⟨u, rfl, h1.symm⟩

/-- Witness for C5: a successful login on the scenario store yields the
sanitized view, and replacing the stored hash does not change a sanitized
getUser record. -/
theorem responses_never_contain_hash_witness :
    (∃ u, storeAna.users.find?
          (fun x => x.email == (some "ana@x.com").getD "") = some u
        ∧ ({ id := 1, firstName := "Ana", lastName := "Lee",
             email := "ana@x.com", hasPreferences := false } : LoginView)
            = loginViewOf u
        ∧ (200 : Nat) = 200)
    ∧ sanitizeUser { anaRecord with password := "someOtherHash" }
        = sanitizeUser anaRecord :=
  ⟨responses_never_contain_hash.1 storeAna (some "ana@x.com")
      (some "pass1234") 200 "Đăng nhập thành công!"
      { id := 1, firstName := "Ana", lastName := "Lee",
        email := "ana@x.com", hasPreferences := false } (by decide),
   responses_never_contain_hash.2.2.2 anaRecord "someOtherHash"⟩

/-! ### Helper lemmas about `updateFirst` -/

theorem updateFirst_split (p : UserRecord → Bool) (f : UserRecord → UserRecord)
    (l : List UserRecord) (u : UserRecord) (h : l.find? p = some u) :
    ∃ l1 l2, l = l1 ++ u :: l2 ∧ (∀ x ∈ l1, p x = false)
      ∧ updateFirst p f l = (some (f u), l1 ++ f u :: l2) := by
  induction l with
  | nil => simp at h
  | cons a rest ih =>
    by_cases ha : p a = true
    · rw [List.find?_cons_of_pos _ ha] at h
      obtain rfl : a = u := by injection h
      exact ⟨[], rest, rfl, by simp, by simp [updateFirst, ha]⟩
    · rw [Bool.not_eq_true] at ha
      rw [List.find?_cons_of_neg _ (by simp [ha])] at h
      obtain ⟨l1, l2, hl, hl1, hupd⟩ := ih h
      refine ⟨a :: l1, l2, by rw [hl, List.cons_append], ?_, by simp [updateFirst, ha, hupd]⟩
      intro x hx
      rcases List.mem_cons.mp hx with rfl | hx
      · exact ha
      · exact hl1 x hx

theorem updateFirst_preserves_ids (p : UserRecord → Bool)
    (inp : PreferencesInput) (l : List UserRecord) :
    ((updateFirst p (fun x => applyPreferences x inp) l).2.map fun u => u.id)
      = l.map fun u => u.id := by
  induction l with
  | nil => rfl
  | cons a rest ih =>
    by_cases ha : p a = true
    · simp [updateFirst, ha, applyPreferences]
    · rw [Bool.not_eq_true] at ha
      simp [updateFirst, ha, ih]

theorem updatePreferences_eq_of_found (st : Store) (inp : PreferencesInput)
    (u : UserRecord) (l1 l2 : List UserRecord)
    (h0 : natFalsy inp.userId = false)
    (hupd : updateFirst (fun x => x.id == inp.userId.getD 0)
        (fun x => applyPreferences x inp) st.users
      = (some (applyPreferences u inp), l1 ++ applyPreferences u inp :: l2)) :
    updatePreferences st inp
      = (.success 200 "Preferences đã được cập nhật!" (applyPreferences u inp),
         { st with users := l1 ++ applyPreferences u inp :: l2 }) := by
  simp [updatePreferences, h0, hupd]

/-! ### C3 -/

/-- C3: on an existing userId, the targeted record's preference fields are
overwritten — tag fields by array-or-empty coercion, priceRange and
minRating by falsy defaulting — `hasPreferences` is set to true
unconditionally, the updated record is persisted in the store, and the
full record, stored password hash included, is returned. -/
theorem updatePreferences_success (st : Store) (inp : PreferencesInput)
    (u : UserRecord) (h0 : natFalsy inp.userId = false)
    (h : st.users.find? (fun x => x.id == inp.userId.getD 0) = some u) :
    (updatePreferences st inp).1
        = .success 200 "Preferences đã được cập nhật!" (applyPreferences u inp)
      ∧ (applyPreferences u inp).preferences = coerceTags inp.preferences
      ∧ (applyPreferences u inp).dietaryRestrictions
          = coerceTags inp.dietaryRestrictions
      ∧ (applyPreferences u inp).cuisineTypes = coerceTags inp.cuisineTypes
      ∧ (applyPreferences u inp).priceRange = jsOrString inp.priceRange ""
      ∧ (applyPreferences u inp).minRating = jsOrRat inp.minRating 3
      ∧ (applyPreferences u inp).hasPreferences = true
      ∧ (applyPreferences u inp).password = u.password
      ∧ applyPreferences u inp ∈ (updatePreferences st inp).2.users := by
  obtain ⟨l1, l2, hl, hl1, hupd⟩ :=
    updateFirst_split (fun x => x.id == inp.userId.getD 0)
      (fun x => applyPreferences x inp) st.users u h
  rw [updatePreferences_eq_of_found st inp u l1 l2 h0 hupd]
  refine ⟨rfl, rfl, rfl, rfl, rfl, rfl, rfl, rfl, ?_⟩
  simp

/-- The concrete preferences body of the spec's scenario:
`(1, ["vegan"], ["gluten-free"], ["italian"], "$$", 4.0)`. -/
def prefsAna : PreferencesInput :=
  { userId := some 1, preferences := .arr ["vegan"],
    dietaryRestrictions := .arr ["gluten-free"],
    cuisineTypes := .arr ["italian"], priceRange := some "$$",
    minRating := some 4 }

/-- Witness for C3: the scenario preferences update succeeds and returns
the updated record, which keeps the stored hash. -/
theorem updatePreferences_success_witness :
    (updatePreferences storeAna prefsAna).1
        = .success 200 "Preferences đã được cập nhật!"
            (applyPreferences anaRecord prefsAna)
    ∧ (applyPreferences anaRecord prefsAna).hasPreferences = true
    ∧ (applyPreferences anaRecord prefsAna).password = anaRecord.password :=
  ⟨(updatePreferences_success storeAna prefsAna anaRecord (by decide)
      (by decide)).1,
   (updatePreferences_success storeAna prefsAna anaRecord (by decide)
      (by decide)).2.2.2.2.2.2.1,
   (updatePreferences_success storeAna prefsAna anaRecord (by decide)
      (by decide)).2.2.2.2.2.2.2.1⟩

/-! ### C9 -/

/-- C9: updatePreferences on an existing user changes nothing outside the
six preference fields of the targeted record: the record keeps its id,
names, email, phone, password hash and createdAt, every other record is
unchanged (same prefix and suffix of the collection), and nextId is
unchanged. -/
theorem updatePreferences_frame (st : Store) (inp : PreferencesInput)
    (u : UserRecord) (h0 : natFalsy inp.userId = false)
    (h : st.users.find? (fun x => x.id == inp.userId.getD 0) = some u) :
    ∃ l1 l2,
      st.users = l1 ++ u :: l2
      ∧ (updatePreferences st inp).2.users
          = l1 ++ applyPreferences u inp :: l2
      ∧ (updatePreferences st inp).2.nextId = st.nextId
      ∧ (applyPreferences u inp).id = u.id
      ∧ (applyPreferences u inp).firstName = u.firstName
      ∧ (applyPreferences u inp).lastName = u.lastName
      ∧ (applyPreferences u inp).email = u.email
      ∧ (applyPreferences u inp).phone = u.phone
      ∧ (applyPreferences u inp).password = u.password
      ∧ (applyPreferences u inp).createdAt = u.createdAt := by
  obtain ⟨l1, l2, hl, hl1, hupd⟩ :=
    updateFirst_split (fun x => x.id == inp.userId.getD 0)
      (fun x => applyPreferences x inp) st.users u h
  rw [updatePreferences_eq_of_found st inp u l1 l2 h0 hupd]
  exact ⟨l1, l2, hl, rfl, rfl, rfl, rfl, rfl, rfl, rfl, rfl, rfl⟩

/-- Witness for C9 at the scenario update. -/
theorem updatePreferences_frame_witness :
    ∃ l1 l2,
      storeAna.users = l1 ++ anaRecord :: l2
      ∧ (updatePreferences storeAna prefsAna).2.users
          = l1 ++ applyPreferences anaRecord prefsAna :: l2
      ∧ (updatePreferences storeAna prefsAna).2.nextId = storeAna.nextId
      ∧ (applyPreferences anaRecord prefsAna).id = anaRecord.id
      ∧ (applyPreferences anaRecord prefsAna).firstName = anaRecord.firstName
      ∧ (applyPreferences anaRecord prefsAna).lastName = anaRecord.lastName
      ∧ (applyPreferences anaRecord prefsAna).email = anaRecord.email
      ∧ (applyPreferences anaRecord prefsAna).phone = anaRecord.phone
      ∧ (applyPreferences anaRecord prefsAna).password = anaRecord.password
      ∧ (applyPreferences anaRecord prefsAna).createdAt
          = anaRecord.createdAt :=
  updatePreferences_frame storeAna prefsAna anaRecord (by decide) (by decide)

/-! ### C7: the nextId invariant over reachable stores -/

theorem signup_snd (st : Store) (inp : SignupInput) (now : String) :
    (signup st inp now).2 = st
    ∨ (signup st inp now).2
        = { users := st.users ++ [newUserRecord st inp now],
            nextId := st.nextId + 1 } := by
  cases h1 : nameOk inp with
  | false => left; rw [signup_eq_of_name_fail st inp now h1]
  | true => cases h2 : emailOk inp with
    | false => left; rw [signup_eq_of_email_fail st inp now h1 h2]
    | true => cases h3 : passwordOk inp with
      | false => left; rw [signup_eq_of_password_fail st inp now h1 h2 h3]
      | true => cases h4 : confirmOk inp with
        | false => left; rw [signup_eq_of_confirm_fail st inp now h1 h2 h3 h4]
        | true => cases h5 : emailFree st inp with
          | false => left; rw [signup_eq_of_taken st inp now h1 h2 h3 h4 h5]
          | true => right; rw [signup_eq_of_ok st inp now h1 h2 h3 h4 h5]

theorem updatePreferences_snd (st : Store) (inp : PreferencesInput) :
    (updatePreferences st inp).2 = st
    ∨ ((updatePreferences st inp).2.users.map (fun u => u.id)
          = st.users.map (fun u => u.id)
        ∧ (updatePreferences st inp).2.nextId = st.nextId) := by
  cases h0 : natFalsy inp.userId with
  | true => left; simp [updatePreferences, h0]
  | false =>
    have hids := updateFirst_preserves_ids
      (fun x => x.id == inp.userId.getD 0) inp st.users
    cases hu : updateFirst (fun x => x.id == inp.userId.getD 0)
        (fun x => applyPreferences x inp) st.users with
    | mk r l =>
      rw [hu] at hids
      cases r with
      | none => left; simp [updatePreferences, h0, hu]
      | some u =>
        right
        constructor
        · simpa [updatePreferences, h0, hu] using hids
        · simp [updatePreferences, h0, hu]

/-- The list of record ids in a store. -/
def storeIds (st : Store) : List Nat := st.users.map fun u => u.id

theorem reachable_ids_inv (st : Store) (h : Reachable st) :
    (∀ i ∈ storeIds st, i < st.nextId) ∧ (storeIds st).Nodup := by
  induction h with
  | init =>
    constructor
    · intro i hi
      simp [storeIds, initialStore] at hi
    · simp [storeIds, initialStore]
  | signupStep st inp now hr ih =>
    rcases signup_snd st inp now with heq | heq
    · rw [heq]; exact ih
    · rw [heq]
      obtain ⟨ih1, ih2⟩ := ih
      have hids : storeIds { users := st.users ++ [newUserRecord st inp now]
                             nextId := st.nextId + 1 }
          = storeIds st ++ [st.nextId] := by
        simp [storeIds, newUserRecord]
      constructor
      · intro i hi
        rw [hids, List.mem_append] at hi
        rcases hi with hi | hi
        · exact Nat.lt_succ_of_lt (ih1 i hi)
        · rw [List.mem_singleton] at hi
          subst hi
          exact Nat.lt_succ_self _
      · rw [hids, List.nodup_append]
        refine ⟨ih2, List.nodup_singleton _, ?_⟩
        intro a ha hb
        rw [List.mem_singleton] at hb
        subst hb
        exact absurd (ih1 _ ha) (lt_irrefl _)
  | prefsStep st inp hr ih =>
    rcases updatePreferences_snd st inp with heq | ⟨hids, hnext⟩
    · rw [heq]; exact ih
    · have h' : storeIds (updatePreferences st inp).2 = storeIds st := hids
      rw [h', hnext]
      exact ih

/-- C7: in every store reachable from the empty initial store by the
repository's operations, `nextId` strictly exceeds the id of every stored
record, and consequently all record ids are pairwise distinct. -/
theorem reachable_nextId_gt (st : Store) (h : Reachable st) :
    (∀ u ∈ st.users, u.id < st.nextId)
    ∧ st.users.Pairwise (fun a b => a.id ≠ b.id) := by
  obtain ⟨h1, h2⟩ := reachable_ids_inv st h
  constructor
  · intro u hu
    exact h1 u.id (List.mem_map_of_mem _ hu)
  · have h2' : (st.users.map fun u => u.id).Pairwise (· ≠ ·) := h2
    exact List.pairwise_map.mp h2'

/-- Witness for C7: the store reached by the scenario signup from the
empty store satisfies the invariant. -/
theorem reachable_nextId_gt_witness :
    (∀ u ∈ (signup initialStore inpAna "2024-01-01T00:00:00.000Z").2.users,
        u.id < (signup initialStore inpAna "2024-01-01T00:00:00.000Z").2.nextId)
    ∧ (signup initialStore inpAna
        "2024-01-01T00:00:00.000Z").2.users.Pairwise
        (fun a b => a.id ≠ b.id) :=
  reachable_nextId_gt _
    (Reachable.signupStep initialStore inpAna "2024-01-01T00:00:00.000Z"
      Reachable.init)

/-! ### C8 -/

/-- C8: loading returns the parsed durable state when present and
parseable (file untouched); when absent it synthesizes the empty default
`{users: [], nextId: 1}`, persists it and returns it; when present but
unparseable it returns the empty default in memory while the durable file
is left untouched. -/
theorem load_spec :
    (∀ st : Store, load (.parsed st) = (st, .parsed st))
  ∧ load .absent = (initialStore, .parsed initialStore)
  ∧ load .unparseable = (initialStore, .unparseable) :=
  ⟨fun _ => rfl, rfl, rfl⟩

/-! ### C10 -/

theorem hashPassword_injective (p q : String)
    (h : hashPassword p = hashPassword q) : p = q := by
  simp only [hashPassword] at h
  have hd := congrArg String.data h
  rw [String.data_append, String.data_append] at hd
  exact String.ext (List.append_cancel_left hd)

/-- C10: verifying the original plaintext against its hash always
succeeds, verifying any different plaintext against it always fails, and
the produced hash never equals the plaintext. -/
theorem hash_verify_roundtrip :
    (∀ p : String, verifyPassword p (hashPassword p) = true)
  ∧ (∀ p q : String, q ≠ p → verifyPassword q (hashPassword p) = false)
  ∧ (∀ p : String, hashPassword p ≠ p) := by
  refine ⟨?_, ?_, ?_⟩
  · intro p
    simp [verifyPassword]
  · intro p q hne
    simp only [verifyPassword]
    exact decide_eq_false fun he => hne (hashPassword_injective p q he).symm
  · intro p hq
    simp only [hashPassword] at hq
    have hlen := congrArg String.length hq
    rw [String.length_append] at hlen
    have h7 : ("$2a$10$" : String).length = 7 := rfl
    rw [h7] at hlen
    omega

/-- Witness for C10 at concrete passwords. -/
theorem hash_verify_roundtrip_witness :
    verifyPassword "wrongpass1" (hashPassword "pass1234") = false :=
  hash_verify_roundtrip.2.1 "pass1234" "wrongpass1" (by decide)

end RestaurantRec
